import Mathlib

/-!
# Verification of the Pusher HTTP client core (`pusher/pusher_client.py`)

A shallow embedding of the client's core operations: triggering events,
channel queries, channel-subscription authentication tokens and webhook
validation.  Python values are modelled by `PyValue`, Python exceptions by
`PyError` (fallible code returns `Except PyError _`), machine integers by
`Nat`/`Int` with explicit `% 2^32` where overflow matters.

The file `pusher/pusher_client.py` is translated directly.  Its helpers
from `pusher/util.py`, `pusher/signature.py` and `pusher/http.py` are not
part of the sources at hand and are modelled from the specification
(each such definition carries a `Modelled from the spec:` doc comment).
-/

namespace Pusher

/-- A model of the Python values this client manipulates: `None`, booleans,
integers, text strings, lists and string-keyed dicts (as association lists
in insertion order, keys unique).  JSON float literals are outside the
model; the webhook timestamps the spec describes are integer epoch
milliseconds. -/
inductive PyValue where
  | none : PyValue
  | bool (b : Bool) : PyValue
  | int (n : Int) : PyValue
  | str (s : String) : PyValue
  | list (xs : List PyValue) : PyValue
  | dict (kvs : List (String × PyValue)) : PyValue
deriving Repr

/-- Python truthiness (`if x:`) on the modelled values: `None`, `False`,
`0`, `""`, `[]` and `{}` are falsy, everything else truthy. -/
def PyValue.truthy : PyValue → Bool
  | .none => false
  | .bool b => b
  | .int n => n != 0
  | .str s => s != ""
  | .list xs => !xs.isEmpty
  | .dict kvs => !kvs.isEmpty

/-- The Python exceptions the embedded code can raise.  The validation
errors carry the offending field, matching the typed-error taxonomy of the
spec (`InvalidChannel`, `InvalidSocketId`, `TooManyChannels`,
`EventNameTooLong`, `PayloadTooLarge`); the remaining constructors model
the builtin exceptions (`TypeError`, `KeyError`, `AttributeError`,
`OverflowError`) and the JSON decoder's `ValueError`.  `floatLiteral` is
not a Python exception but a model marker: it flags a syntactically valid
JSON document whose value involves a float literal (or `NaN`/`Infinity`),
which lies outside the `PyValue` model; every theorem's domain excludes
such bodies. -/
inductive PyError where
  | invalidChannel (channel : String) : PyError
  | invalidSocketId (socketId : String) : PyError
  | tooManyChannels : PyError
  | eventNameTooLong : PyError
  | tooMuchData : PyError
  | typeErrorChannels : PyError
  | keyError (key : String) : PyError
  | attributeError (attr : String) : PyError
  | typeErrorArith : PyError
  | overflowError : PyError
  | jsonDecodeError : PyError
  | floatLiteral : PyError
deriving DecidableEq, Repr

/-! ## UTF-8 encoding

Byte sequences are `List Nat` (each entry `< 256`).  `strUtf8` encodes a
string the way Python's `str.encode("utf-8")` does. -/

/-- UTF-8 bytes of one code point. -/
def charUtf8 (c : Char) : List Nat :=
  let n := c.toNat
  if n < 0x80 then [n]
  else if n < 0x800 then [0xc0 + n / 64, 0x80 + n % 64]
  else if n < 0x10000 then
    [0xe0 + n / 4096, 0x80 + (n / 64) % 64, 0x80 + n % 64]
  else
    [0xf0 + n / 262144, 0x80 + (n / 4096) % 64, 0x80 + (n / 64) % 64,
     0x80 + n % 64]

/-- UTF-8 encoding of a string as a byte list. -/
def strUtf8 (s : String) : List Nat :=
  (s.toList.map charUtf8).flatten

/-- The UTF-8 byte length of a string (what "serialized byte length" means
for a payload sent on the wire). -/
def utf8Len (s : String) : Nat :=
  (strUtf8 s).length

/-! ## SHA-256 and HMAC-SHA256

Modelled from the spec: `pusher/signature.py` is not among the sources.
Per the spec, `sign(secret, message)` "computes HMAC-SHA256 of `message`
under `secret`, returns lowercase hex string" and `verify` "recomputes the
signature and compares to the supplied one".  The hash is implemented over
`Nat` with explicit reduction mod `2^32` (FIPS 180-4). -/

namespace SHA256

/-- `2^32`, the word modulus. -/
def M32 : Nat := 4294967296

/-- Addition mod `2^32`. -/
def add32 (a b : Nat) : Nat := (a + b) % M32

/-- Right rotation of a 32-bit word. -/
def rotr (n x : Nat) : Nat := ((x >>> n) + (x <<< (32 - n))) % M32

/-- The 64 round constants. -/
def K : List Nat :=
  [1116352408, 1899447441, 3049323471, 3921009573, 961987163,
   1508970993, 2453635748, 2870763221, 3624381080, 310598401,
   607225278, 1426881987, 1925078388, 2162078206, 2614888103,
   3248222580, 3835390401, 4022224774, 264347078, 604807628,
   770255983, 1249150122, 1555081692, 1996064986, 2554220882,
   2821834349, 2952996808, 3210313671, 3336571891, 3584528711,
   113926993, 338241895, 666307205, 773529912, 1294757372,
   1396182291, 1695183700, 1986661051, 2177026350, 2456956037,
   2730485921, 2820302411, 3259730800, 3345764771, 3516065817,
   3600352804, 4094571909, 275423344, 430227734, 506948616,
   659060556, 883997877, 958139571, 1322822218, 1537002063,
   1747873779, 1955562222, 2024104815, 2227730452, 2361852424,
   2428436474, 2756734187, 3204031479, 3329325298]

/-- The initial hash value. -/
def H0 : List Nat :=
  [1779033703, 3144134277, 1013904242,
   2773480762, 1359893119, 2600822924,
   528734635, 1541459225]

/-- Message padding: append `0x80`, zero bytes to 56 mod 64, then the
bit length as 8 big-endian bytes. -/
def pad (msg : List Nat) : List Nat :=
  let l := msg.length
  let zeros := (119 - l % 64) % 64
  let bitLen := l * 8
  msg ++ [0x80] ++ List.replicate zeros 0 ++
    [(bitLen >>> 56) % 256, (bitLen >>> 48) % 256, (bitLen >>> 40) % 256,
     (bitLen >>> 32) % 256, (bitLen >>> 24) % 256, (bitLen >>> 16) % 256,
     (bitLen >>> 8) % 256, bitLen % 256]

/-- Split a byte list into 64-byte chunks (fuel-indexed). -/
def chunks : Nat → List Nat → List (List Nat)
  | 0, _ => []
  | _, [] => []
  | fuel + 1, bs => bs.take 64 :: chunks fuel (bs.drop 64)

/-- Pack 4 big-endian bytes into one word (fuel on the list structure). -/
def toWords : List Nat → List Nat
  | b0 :: b1 :: b2 :: b3 :: rest =>
      ((b0 <<< 24) + (b1 <<< 16) + (b2 <<< 8) + b3) :: toWords rest
  | _ => []

/-- The next word of the message schedule, from the last 16 words. -/
def nextWord (w : List Nat) : Nat :=
  let i := w.length
  let w2 := w.getD (i - 2) 0
  let w7 := w.getD (i - 7) 0
  let w15 := w.getD (i - 15) 0
  let w16 := w.getD (i - 16) 0
  let s0 := (rotr 7 w15) ^^^ (rotr 18 w15) ^^^ (w15 >>> 3)
  let s1 := (rotr 17 w2) ^^^ (rotr 19 w2) ^^^ (w2 >>> 10)
  (w16 + s0 + w7 + s1) % M32

/-- Extend the 16 schedule words by `n` more. -/
def extend : List Nat → Nat → List Nat
  | w, 0 => w
  | w, n + 1 => extend (w ++ [nextWord w]) n

/-- The working state of the compression function. -/
structure St where
  a : Nat
  b : Nat
  c : Nat
  d : Nat
  e : Nat
  f : Nat
  g : Nat
  h : Nat

/-- One round of the compression function. -/
def round (st : St) (kw : Nat × Nat) : St :=
  let S1 := (rotr 6 st.e) ^^^ (rotr 11 st.e) ^^^ (rotr 25 st.e)
  let ch := (st.e &&& st.f) ^^^ ((M32 - 1 - st.e) &&& st.g)
  let temp1 := (st.h + S1 + ch + kw.1 + kw.2) % M32
  let S0 := (rotr 2 st.a) ^^^ (rotr 13 st.a) ^^^ (rotr 22 st.a)
  let maj := (st.a &&& st.b) ^^^ (st.a &&& st.c) ^^^ (st.b &&& st.c)
  let temp2 := (S0 + maj) % M32
  ⟨(temp1 + temp2) % M32, st.a, st.b, st.c,
   (st.d + temp1) % M32, st.e, st.f, st.g⟩

/-- Process one 64-byte chunk, updating the 8-word hash value. -/
def processChunk (hv : List Nat) (chunk : List Nat) : List Nat :=
  let w := extend (toWords chunk) 48
  let st0 : St := ⟨hv.getD 0 0, hv.getD 1 0, hv.getD 2 0, hv.getD 3 0,
                   hv.getD 4 0, hv.getD 5 0, hv.getD 6 0, hv.getD 7 0⟩
  let st := (K.zip w).foldl round st0
  [add32 (hv.getD 0 0) st.a, add32 (hv.getD 1 0) st.b,
   add32 (hv.getD 2 0) st.c, add32 (hv.getD 3 0) st.d,
   add32 (hv.getD 4 0) st.e, add32 (hv.getD 5 0) st.f,
   add32 (hv.getD 6 0) st.g, add32 (hv.getD 7 0) st.h]

/-- SHA-256 digest of a byte list, as 32 bytes. -/
def sha256 (msg : List Nat) : List Nat :=
  let padded := pad msg
  let hv := (chunks (padded.length / 64 + 1) padded).foldl processChunk H0
  (hv.map (fun w =>
    [(w >>> 24) % 256, (w >>> 16) % 256, (w >>> 8) % 256, w % 256])).flatten

/-- HMAC-SHA256 over byte lists (RFC 2104, block size 64). -/
def hmacSha256 (key msg : List Nat) : List Nat :=
  let key := if key.length > 64 then sha256 key else key
  let key := key ++ List.replicate (64 - key.length) 0
  let ipad := key.map (fun b => b ^^^ 0x36)
  let opad := key.map (fun b => b ^^^ 0x5c)
  sha256 (opad ++ sha256 (ipad ++ msg))

/-- One lowercase hex digit. -/
def hexDigit (n : Nat) : Char :=
  if n < 10 then Char.ofNat (48 + n) else Char.ofNat (87 + n % 16)

/-- Lowercase hex rendering of a byte list. -/
def toHex (bs : List Nat) : String :=
  String.mk ((bs.map (fun b => [hexDigit (b / 16 % 16), hexDigit (b % 16)])).flatten)

end SHA256

/-- Modelled from the spec: `sign` of `pusher/signature.py` is not among
the sources.  "Computes HMAC-SHA256 of `message` under `secret`, returns
lowercase hex string.  Pure function, no side effects." -/
def sign (secret message : String) : String :=
  SHA256.toHex (SHA256.hmacSha256 (strUtf8 secret) (strUtf8 message))

/-- Modelled from the spec: `verify` of `pusher/signature.py` is not among
the sources.  "Recomputes the signature and compares to the supplied one
...; returns false (never raises) on mismatch."  (Constant-timeness is a
timing property outside the embedding.) -/
def verify (secret message signature : String) : Bool :=
  sign secret message == signature

/-! ## JSON codec

A model of the Python `json` module as used by the client with its default
encoder/decoder classes (`json.dumps(x)` / `json.loads(s)`), on the value
fragment of `PyValue`: default separators (`", "` and `": "`),
`ensure_ascii` escaping, integer numeric literals (floats are outside the
model), object keys unique. -/

/-- Four lowercase hex digits. -/
def uhex4 (n : Nat) : List Char :=
  [SHA256.hexDigit (n / 4096 % 16), SHA256.hexDigit (n / 256 % 16),
   SHA256.hexDigit (n / 16 % 16), SHA256.hexDigit (n % 16)]

/-- `\uXXXX` escape (surrogate pair beyond the BMP), as `json.dumps`
emits with `ensure_ascii`. -/
def uEscape (n : Nat) : List Char :=
  if n < 0x10000 then '\\' :: 'u' :: uhex4 n
  else
    let m := n - 0x10000
    ('\\' :: 'u' :: uhex4 (0xd800 + m / 1024)) ++
      ('\\' :: 'u' :: uhex4 (0xdc00 + m % 1024))

/-- Escaping of one character inside a JSON string literal
(`ensure_ascii=True`). -/
def jsonEscapeChar (c : Char) : List Char :=
  if c = '"' then ['\\', '"']
  else if c = '\\' then ['\\', '\\']
  else if c = '\n' then ['\\', 'n']
  else if c = '\t' then ['\\', 't']
  else if c = '\r' then ['\\', 'r']
  else if c.toNat = 8 then ['\\', 'b']
  else if c.toNat = 12 then ['\\', 'f']
  else if c.toNat < 0x20 || c.toNat > 0x7e then uEscape c.toNat
  else [c]

/-- A JSON string literal for `s`, quotes included. -/
def jsonQuote (s : String) : String :=
  "\"" ++ String.mk (s.toList.map jsonEscapeChar).flatten ++ "\""

/-- Decimal digits of `n`, most significant first (fuel-indexed). -/
def natDigitsAux : Nat → Nat → List Char
  | 0, _ => []
  | fuel + 1, n =>
      if n < 10 then [Char.ofNat (48 + n)]
      else natDigitsAux fuel (n / 10) ++ [Char.ofNat (48 + n % 10)]

/-- Decimal rendering of a natural number, as Python's `str`. -/
def natRepr (n : Nat) : String :=
  String.mk (natDigitsAux (n + 1) n)

/-- Decimal rendering of an integer, as Python's `str`: a `-` sign
followed by the digits for negatives. -/
def intRepr (n : Int) : String :=
  if n < 0 then "-" ++ natRepr n.natAbs else natRepr n.natAbs

mutual

/-- `json.dumps` with the default encoder on the modelled values. -/
def jsonDumps : PyValue → String
  | .none => "null"
  | .bool true => "true"
  | .bool false => "false"
  | .int n => intRepr n
  | .str s => jsonQuote s
  | .list xs => "[" ++ jsonDumpsList xs ++ "]"
  | .dict kvs => "\x7b" ++ jsonDumpsDict kvs ++ "\x7d"

/-- Comma-separated serialization of array items. -/
def jsonDumpsList : List PyValue → String
  | [] => ""
  | [v] => jsonDumps v
  | v :: rest => jsonDumps v ++ ", " ++ jsonDumpsList rest

/-- Comma-separated serialization of object members. -/
def jsonDumpsDict : List (String × PyValue) → String
  | [] => ""
  | [(k, v)] => jsonQuote k ++ ": " ++ jsonDumps v
  | (k, v) :: rest => jsonQuote k ++ ": " ++ jsonDumps v ++ ", " ++ jsonDumpsDict rest

end

/-- JSON whitespace. -/
def isWs (c : Char) : Bool :=
  c = ' ' || c = '\t' || c = '\n' || c = '\r'

/-- Value of one hex digit. -/
def hexDigitVal (c : Char) : Option Nat :=
  if c.isDigit then some (c.toNat - 48)
  else if 'a' ≤ c ∧ c ≤ 'f' then some (c.toNat - 87)
  else if 'A' ≤ c ∧ c ≤ 'F' then some (c.toNat - 55)
  else Option.none

/-- Value of a 4-hex-digit group. -/
def hex4 (h1 h2 h3 h4 : Char) : Option Nat := do
  let a ← hexDigitVal h1
  let b ← hexDigitVal h2
  let c ← hexDigitVal h3
  let d ← hexDigitVal h4
  pure (a * 4096 + b * 256 + c * 16 + d)

/-- Single-character JSON escapes. -/
def escChar (e : Char) : Option Char :=
  if e = '"' then some '"'
  else if e = '\\' then some '\\'
  else if e = '/' then some '/'
  else if e = 'n' then some '\n'
  else if e = 't' then some '\t'
  else if e = 'r' then some '\r'
  else if e = 'b' then some (Char.ofNat 8)
  else if e = 'f' then some (Char.ofNat 12)
  else Option.none

/-- Parse the body of a JSON string literal, the opening quote already
consumed; returns the decoded characters and the remaining input. -/
def parseStringBody : List Char → Option (List Char × List Char)
  | [] => Option.none
  | '"' :: rest => some ([], rest)
  | '\\' :: 'u' :: h1 :: h2 :: h3 :: h4 :: rest => do
      let n ← hex4 h1 h2 h3 h4
      let (s, r) ← parseStringBody rest
      pure (Char.ofNat n :: s, r)
  | '\\' :: e :: rest => do
      let c ← escChar e
      let (s, r) ← parseStringBody rest
      pure (c :: s, r)
  | c :: rest =>
      if c.toNat < 0x20 then Option.none
      else do
        let (s, r) ← parseStringBody rest
        pure (c :: s, r)

/-- Insert into the model of a CPython dict: re-assigning an existing key
keeps its position and replaces its value, a new key is appended. -/
def pyDictUpdate : List (String × PyValue) → String → PyValue →
    List (String × PyValue)
  | [], k, v => [(k, v)]
  | (k1, v1) :: rest, k, v =>
      if k1 = k then (k1, v) :: rest else (k1, v1) :: pyDictUpdate rest k v

/-- The dict built from parsed object members: later duplicate keys
override earlier values, as CPython's `d[key] = value` loop does. -/
def pyDictOfPairs (pairs : List (String × PyValue)) : List (String × PyValue) :=
  pairs.foldl (fun acc kv => pyDictUpdate acc kv.1 kv.2) []

/-- The tail of a number after `e`/`E`: an optional sign and at least one
digit make a float literal, anything else is a JSON syntax error. -/
def parseExponent (cs : List Char) : Except PyError (PyValue × List Char) :=
  let cs2 := match cs with
    | '+' :: r => r
    | '-' :: r => r
    | r => r
  match cs2 with
  | d :: _ => if d.isDigit then .error .floatLiteral else .error .jsonDecodeError
  | [] => .error .jsonDecodeError

/-- Parse a JSON number.  Integer literals (no leading zeros, per the
grammar `json.loads` enforces) become `PyValue.int`; float literals
(fraction or exponent) and `-Infinity` are accepted by `json.loads` but
their values lie outside the model and surface as the `floatLiteral`
marker. -/
def parseNumber (cs : List Char) : Except PyError (PyValue × List Char) :=
  match cs with
  | '-' :: 'I' :: 'n' :: 'f' :: 'i' :: 'n' :: 'i' :: 't' :: 'y' :: _ =>
      .error .floatLiteral
  | _ =>
    let (neg, cs2) := match cs with
      | '-' :: r => (true, r)
      | _ => (false, cs)
    let digits := cs2.takeWhile Char.isDigit
    let rest := cs2.dropWhile Char.isDigit
    match digits with
    | [] => .error .jsonDecodeError
    | '0' :: _ :: _ => .error .jsonDecodeError
    | _ =>
        match rest with
        | '.' :: d :: _ =>
            if d.isDigit then .error .floatLiteral else .error .jsonDecodeError
        | ['.'] => .error .jsonDecodeError
        | c :: r2 =>
            if c = 'e' || c = 'E' then parseExponent r2
            else
              let n : Nat := digits.foldl (fun a c => a * 10 + (c.toNat - 48)) 0
              .ok (.int (if neg then -(n : Int) else (n : Int)), rest)
        | [] =>
            let n : Nat := digits.foldl (fun a c => a * 10 + (c.toNat - 48)) 0
            .ok (.int (if neg then -(n : Int) else (n : Int)), rest)

mutual

/-- Recursive-descent JSON value parser, fuel-indexed.  A failure is
either the decoder's `ValueError` (`jsonDecodeError`) or the
`floatLiteral` out-of-model marker. -/
def parseVal : Nat → List Char → Except PyError (PyValue × List Char)
  | 0, _ => .error .jsonDecodeError
  | fuel + 1, cs =>
    match cs.dropWhile isWs with
    | [] => .error .jsonDecodeError
    | c :: rest =>
      if c = 'n' then
        match rest with
        | 'u' :: 'l' :: 'l' :: r => .ok (.none, r)
        | _ => .error .jsonDecodeError
      else if c = 't' then
        match rest with
        | 'r' :: 'u' :: 'e' :: r => .ok (.bool true, r)
        | _ => .error .jsonDecodeError
      else if c = 'f' then
        match rest with
        | 'a' :: 'l' :: 's' :: 'e' :: r => .ok (.bool false, r)
        | _ => .error .jsonDecodeError
      else if c = 'N' then
        match rest with
        | 'a' :: 'N' :: _ => .error .floatLiteral
        | _ => .error .jsonDecodeError
      else if c = 'I' then
        match rest with
        | 'n' :: 'f' :: 'i' :: 'n' :: 'i' :: 't' :: 'y' :: _ =>
            .error .floatLiteral
        | _ => .error .jsonDecodeError
      else if c = '"' then
        match parseStringBody rest with
        | some sr => .ok (.str (String.mk sr.1), sr.2)
        | Option.none => .error .jsonDecodeError
      else if c = '[' then
        match rest.dropWhile isWs with
        | ']' :: r => .ok (.list [], r)
        | r => do
            let vr ← parseArrayItems fuel r
            .ok (.list vr.1, vr.2)
      else if c = Char.ofNat 123 then
        match rest.dropWhile isWs with
        | d :: r =>
            if d = Char.ofNat 125 then .ok (.dict [], r)
            else do
              let mr ← parseObjMembers fuel (d :: r)
              .ok (.dict (pyDictOfPairs mr.1), mr.2)
        | [] => .error .jsonDecodeError
      else parseNumber (c :: rest)

/-- Parse one or more comma-separated array items up to `]`. -/
def parseArrayItems : Nat → List Char → Except PyError (List PyValue × List Char)
  | 0, _ => .error .jsonDecodeError
  | fuel + 1, cs => do
    let (v, r) ← parseVal fuel cs
    match r.dropWhile isWs with
    | ',' :: r2 => do
        let (vs, r3) ← parseArrayItems fuel r2
        pure (v :: vs, r3)
    | ']' :: r2 => pure ([v], r2)
    | _ => .error .jsonDecodeError

/-- Parse one or more comma-separated object members up to the closing
brace, in source order with duplicates kept (the caller collapses them
into a dict). -/
def parseObjMembers : Nat → List Char →
    Except PyError (List (String × PyValue) × List Char)
  | 0, _ => .error .jsonDecodeError
  | fuel + 1, cs =>
    match cs.dropWhile isWs with
    | '"' :: rest =>
        match parseStringBody rest with
        | Option.none => .error .jsonDecodeError
        | some kr =>
            match kr.2.dropWhile isWs with
            | ':' :: r2 => do
                let (v, r3) ← parseVal fuel r2
                match r3.dropWhile isWs with
                | ',' :: r4 => do
                    let (kvs, r5) ← parseObjMembers fuel r4
                    pure ((String.mk kr.1, v) :: kvs, r5)
                | d :: r4 =>
                    if d = Char.ofNat 125 then pure ([(String.mk kr.1, v)], r4)
                    else .error .jsonDecodeError
                | _ => .error .jsonDecodeError
            | _ => .error .jsonDecodeError
    | _ => .error .jsonDecodeError

end

/-- `json.loads` with the default decoder: a full parse of the input, the
decoder's `ValueError` (`jsonDecodeError`), or the `floatLiteral` marker
for documents whose value is outside the `PyValue` model.  Surrogate-pair
`\u` escapes are decoded pairwise rather than combined; this cannot
affect membership of the ASCII key `time_ms`. -/
def jsonLoads (s : String) : Except PyError PyValue :=
  let cs := s.toList
  match parseVal (cs.length + 2) cs with
  | .ok (v, rest) =>
      if (rest.dropWhile isWs).isEmpty then .ok v else .error .jsonDecodeError
  | .error e => .error e

/-! ## Validation helpers

Modelled from the spec: `pusher/util.py` is not among the sources. -/

/-- The channel-name alphabet: "alphanumerics plus `_`, `-`, `=`, `@`,
`,`, `.`, `;`". -/
def channelAllowedChar (c : Char) : Bool :=
  c.isAlphanum || c = '_' || c = '-' || c = '=' || c = '@' || c = ',' ||
    c = '.' || c = ';'

/-- Modelled from the spec: the channel-name pattern of `pusher/util.py`
(`channel_name_re`) — every character drawn from the channel-name
alphabet. -/
def channelNameMatch (s : String) : Bool :=
  s.toList.all channelAllowedChar

/-- Modelled from the spec: `validate_channel` of `pusher/util.py` "fails
with `InvalidChannel` if name exceeds 200 characters or contains
characters outside the allowed channel-name alphabet; otherwise returns
the normalized name" (the name is already text, so normalization is the
identity here). -/
def validate_channel (channel : String) : Except PyError String :=
  if channel.length > 200 then .error (.invalidChannel channel)
  else if !channelNameMatch channel then .error (.invalidChannel channel)
  else .ok channel

/-- A valid channel name: within 200 characters and drawn from the
channel-name alphabet. -/
def channelOk (s : String) : Bool :=
  s.length ≤ 200 && channelNameMatch s

/-- Modelled from the spec: the socket-id shape of `pusher/util.py` —
"format `<digits>.<digits>`". -/
def socketIdMatch (s : String) : Bool :=
  match s.toList.dropWhile (fun c => c ≠ '.') with
  | '.' :: b =>
      let a := s.toList.takeWhile (fun c => c ≠ '.')
      !a.isEmpty && !b.isEmpty && a.all Char.isDigit && b.all Char.isDigit
  | _ => false

/-- Modelled from the spec: `validate_socket_id` of `pusher/util.py`
"fails with `InvalidSocketId` if the id does not match the required
numeric-pair shape". -/
def validate_socket_id (socket_id : String) : Except PyError String :=
  if socketIdMatch socket_id then .ok socket_id
  else .error (.invalidSocketId socket_id)

/-- Modelled from the spec: `join_attributes` of `pusher/util.py`
"deterministically joins a set of requested channel-attribute names ...
into the single comma-separated query value the API expects, preserving
caller-specified order". -/
def join_attributes (attributes : List String) : String :=
  String.intercalate "," attributes

/-! ## The client and its request descriptions -/

/-- HTTP method of a request description.  Modelled from the spec:
`GET`/`POST` of `pusher/http.py`. -/
inductive Method where
  | GET : Method
  | POST : Method
deriving DecidableEq, Repr

/-- Modelled from the spec: the `Request` of `pusher/http.py` — "a fully
specified request description (method, path, parameters) ready for
transport".  Signing by the outer authentication layer happens beyond this
description. -/
structure Request where
  method : Method
  path : String
  params : List (String × PyValue)
deriving Repr

/-- The immutable credential set of a `PusherClient` (from
`pusher/client.py`, whose fields `app_id`, `key`, `secret` the source file
reads; the pluggable JSON codec is the default one modelled above). -/
structure PusherClient where
  app_id : String
  key : String
  secret : String

/-- `PusherClient._data_to_string`: a text payload is passed through,
anything else is serialized by the JSON encoder. -/
def data_to_string (data : PyValue) : String :=
  match data with
  | .str s => s
  | d => jsonDumps d

/-- The `channels` argument of `trigger`: a single string, a list, or a
dict (which `trigger` rejects with a `TypeError`). -/
inductive Channels where
  | str (s : String) : Channels
  | list (l : List String) : Channels
  | dict (kvs : List (String × PyValue)) : Channels

/-- The normalization of the `channels` argument: a lone string becomes a
one-element list, a dict raises `TypeError`. -/
def channelsList : Channels → Except PyError (List String)
  | .str s => .ok [s]
  | .list l => .ok l
  | .dict _ => .error .typeErrorChannels

/-- `list(map(validate_channel, channels))`: validates each channel in
order, propagating the first failure. -/
def mapValidate : List String → Except PyError (List String)
  | [] => .ok []
  | c :: rest =>
      match validate_channel c with
      | .error e => .error e
      | .ok c =>
          match mapValidate rest with
          | .error e => .error e
          | .ok rest => .ok (c :: rest)

/-- The `socket_id` handling at the end of `trigger`: a truthy socket id
is validated and appended to the parameters, a missing or falsy one is
ignored. -/
def socketParams (params : List (String × PyValue)) (socket_id : Option String) :
    Except PyError (List (String × PyValue)) :=
  match socket_id with
  | some sid =>
      if sid ≠ "" then
        match validate_socket_id sid with
        | .error e => .error e
        | .ok sid => .ok (params ++ [("socket_id", PyValue.str sid)])
      else .ok params
  | Option.none => .ok params

/-- `PusherClient.trigger`: wraps a lone string channel into a list,
rejects dicts, checks the channel count (at most 10), validates every
channel, checks the event-name length (at most 200), serializes the data
and checks its length (at most 10240), then builds the `POST
/apps/{app_id}/events` request; a truthy `socket_id` is validated and
added last. -/
def trigger (client : PusherClient) (channels : Channels)
    (event_name : String) (data : PyValue) (socket_id : Option String) :
    Except PyError Request :=
  match channelsList channels with
  | .error e => .error e
  | .ok chans =>
      if chans.length > 10 then .error .tooManyChannels
      else
        match mapValidate chans with
        | .error e => .error e
        | .ok chans =>
            if event_name.length > 200 then .error .eventNameTooLong
            else
              let data := data_to_string data
              if data.length > 10240 then .error .tooMuchData
              else
                let params := [("name", PyValue.str event_name),
                               ("channels", PyValue.list (chans.map PyValue.str)),
                               ("data", PyValue.str data)]
                match socketParams params socket_id with
                | .error e => .error e
                | .ok params =>
                    .ok ⟨.POST, "/apps/" ++ client.app_id ++ "/events", params⟩

/-- The in-place update `event['data'] = self._data_to_string(event['data'])`
performed on each batch event when `already_encoded` is false: reading a
missing `data` key raises `KeyError`, subscripting a non-dict raises
`TypeError`, and the assignment replaces the value at the `data` key,
leaving every other member (and the member order) unchanged. -/
def encodeEvent (ev : PyValue) : Except PyError PyValue :=
  match ev with
  | .dict kvs =>
      match kvs.lookup "data" with
      | some d => .ok (.dict (kvs.map fun kv =>
          if kv.1 = "data" then ("data", PyValue.str (data_to_string d)) else kv))
      | Option.none => .error (.keyError "data")
  | _ => .error (.attributeError "getitem")

/-- The per-event loop of `trigger_batch` when `already_encoded` is
false, propagating the first failure. -/
def mapEncode : List PyValue → Except PyError (List PyValue)
  | [] => .ok []
  | ev :: rest =>
      match encodeEvent ev with
      | .error e => .error e
      | .ok ev =>
          match mapEncode rest with
          | .error e => .error e
          | .ok rest => .ok (ev :: rest)

/-- `PusherClient.trigger_batch`: serializes each event's `data` member
unless `already_encoded`, then builds the `POST /apps/{app_id}/batch_events`
request with the `batch` parameter. -/
def trigger_batch (client : PusherClient) (batch : List PyValue)
    (already_encoded : Bool) : Except PyError Request :=
  match (if already_encoded then .ok batch else mapEncode batch) with
  | .error e => .error e
  | .ok batch =>
      .ok ⟨.POST, "/apps/" ++ client.app_id ++ "/batch_events",
           [("batch", PyValue.list batch)]⟩

/-- `PusherClient.channels_info`: builds the `GET /apps/{app_id}/channels`
request, with an `info` parameter for a truthy attribute list and a
`filter_by_prefix` parameter for a truthy prefix filter. -/
def channels_info (client : PusherClient) (prefixFilter : Option String)
    (attributes : List String) : Request :=
  let params : List (String × PyValue) :=
    (if !attributes.isEmpty then [("info", PyValue.str (join_attributes attributes))]
     else []) ++
    (match prefixFilter with
     | some p => if p ≠ "" then [("filter_by_prefix", PyValue.str p)] else []
     | Option.none => [])
  ⟨.GET, "/apps/" ++ client.app_id ++ "/channels", params⟩

/-- `PusherClient.channel_info`: validates the channel, then builds the
`GET /apps/{app_id}/channels/{channel}` request (path interpolates the
caller's channel string). -/
def channel_info (client : PusherClient) (channel : String)
    (attributes : List String) : Except PyError Request :=
  match validate_channel channel with
  | .error e => .error e
  | .ok _ =>
      let params : List (String × PyValue) :=
        if !attributes.isEmpty then
          [("info", PyValue.str (join_attributes attributes))]
        else []
      .ok ⟨.GET, "/apps/" ++ client.app_id ++ "/channels/" ++ channel, params⟩

/-- `PusherClient.users_info`: validates the channel, then builds the
`GET /apps/{app_id}/channels/{channel}/users` request with no
parameters. -/
def users_info (client : PusherClient) (channel : String) :
    Except PyError Request :=
  match validate_channel channel with
  | .error e => .error e
  | .ok _ =>
      .ok ⟨.GET, "/apps/" ++ client.app_id ++ "/channels/" ++ channel ++ "/users", []⟩

/-- `PusherClient.authenticate`: validates channel and socket id, JSON-
serializes a truthy `custom_data`, signs `socket_id:channel` (with
`:custom_data` appended when that serialization is truthy), and returns
the `auth` token `key:signature`, plus `channel_data` when present.  Both
`if custom_data:` re-tests in the source see the serialized string once
the original was truthy, hence the nonemptiness re-test here. -/
def authenticate (client : PusherClient) (channel socket_id : String)
    (custom_data : PyValue) : Except PyError (List (String × String)) :=
  match validate_channel channel with
  | .error e => .error e
  | .ok channel =>
      if !channelNameMatch channel then .error (.invalidChannel channel)
      else
        match validate_socket_id socket_id with
        | .error e => .error e
        | .ok socket_id =>
            let custom : Option String :=
              if custom_data.truthy then some (jsonDumps custom_data)
              else Option.none
            let string_to_sign := socket_id ++ ":" ++ channel
            let string_to_sign :=
              match custom with
              | some s =>
                  if s ≠ "" then string_to_sign ++ ":" ++ s else string_to_sign
              | Option.none => string_to_sign
            let signature := sign client.secret string_to_sign
            let auth := client.key ++ ":" ++ signature
            let result := [("auth", auth)]
            let result :=
              match custom with
              | some s =>
                  if s ≠ "" then result ++ [("channel_data", s)] else result
              | Option.none => result
            .ok result

/-- `body_data.get('time_ms')`: `dict.get` returns the member or `None`;
on any non-dict value the attribute access raises `AttributeError`. -/
def pyGet (v : PyValue) (key : String) : Except PyError PyValue :=
  match v with
  | .dict kvs => .ok ((kvs.lookup key).getD .none)
  | _ => .error (.attributeError "get")

/-- The numeric coercion in `time.time()*1000 - time_ms`: ints and bools
are numbers, anything else raises `TypeError`.  `float(int)` raises
`OverflowError` once the value rounds beyond the largest double — the
CPython cutoff is `2^1024 - 2^970` under round-to-nearest-even.  Below
the cutoff the source rounds the int to a double while this model keeps
it exact; the two provably agree on the `> 300000` freshness verdict
whenever clock and timestamp are below `2^53` in magnitude (doubles are
exact there), which is the only range the theorems use (`tameBody`). -/
def pyNum (v : PyValue) : Except PyError Int :=
  match v with
  | .int n =>
      if n.natAbs < 2 ^ 1024 - 2 ^ 970 then .ok n else .error .overflowError
  | .bool b => .ok (if b then 1 else 0)
  | _ => .error .typeErrorArith

/-- The tail of `PusherClient.validate_webhook` after the key and
signature checks: parse the body (only the decoder's `ValueError` is
caught and rejected — the `floatLiteral` out-of-model marker passes
through untouched), read `time_ms` with `.get`, reject a falsy value,
reject a timestamp more than 300000 ms from now, otherwise accept. -/
def webhookPostVerify (now_ms : Int) (body : String) :
    Except PyError (Option PyValue) :=
  match jsonLoads body with
  | .error .jsonDecodeError => .ok Option.none
  | .error e => .error e
  | .ok body_data =>
      match pyGet body_data "time_ms" with
      | .error e => .error e
      | .ok time_ms =>
          if !time_ms.truthy then .ok Option.none
          else
            match pyNum time_ms with
            | .error e => .error e
            | .ok t =>
                if (now_ms - t).natAbs > 300000 then .ok Option.none
                else .ok (some body_data)

/-- `PusherClient.validate_webhook`.  The wall clock `time.time()*1000` is
passed in as `now_ms` (epoch milliseconds; Python's float arithmetic is
exact on this integer range).  Returns `Except.ok none` for a rejection,
`Except.ok (some payload)` for acceptance, and `Except.error` where the
Python raises. -/
def validate_webhook (client : PusherClient) (now_ms : Int)
    (key signature body : String) : Except PyError (Option PyValue) :=
  if key ≠ client.key then .ok Option.none
  else if !(verify client.secret body signature) then .ok Option.none
  else webhookPostVerify now_ms body

/-! ## Spec-side observations used by the theorems -/

/-- The `time_ms` member of a webhook body that parses to a JSON object;
`none` when the body does not parse to an object or lacks the member. -/
def timeMsOf (body : String) : Option PyValue :=
  match jsonLoads body with
  | .ok (.dict kvs) => kvs.lookup "time_ms"
  | _ => Option.none

/-- A webhook body on which the embedding provably mirrors the source:
the body is invalid JSON, or parses to a JSON object whose `time_ms`
member, when present, is an integer below `2^53` in magnitude — the
range where the source's double arithmetic is exact and cannot overflow.
Float-valued JSON documents (the `floatLiteral` marker) lie outside the
`PyValue` model and are not tame. -/
def tameBody (body : String) : Bool :=
  match jsonLoads body with
  | .error .jsonDecodeError => true
  | .error _ => false
  | .ok (.dict kvs) =>
      match kvs.lookup "time_ms" with
      | Option.none => true
      | some (.int t) => decide (t.natAbs < 2 ^ 53)
      | some _ => false
  | .ok _ => false

/-- A batch event on which the encoding pass is defined: a dict with a
`data` member. -/
def eventEncodable : PyValue → Bool
  | .dict kvs => (kvs.lookup "data").isSome
  | _ => false

/-- What the encoding pass of `trigger_batch` does to one event: replace
the value of the `data` member by its serialized form and leave every
other member, and the member order, unchanged. -/
def setDataField : PyValue → PyValue
  | .dict kvs =>
      match kvs.lookup "data" with
      | some d => .dict (kvs.map fun kv =>
          if kv.1 = "data" then ("data", PyValue.str (data_to_string d)) else kv)
      | Option.none => .dict kvs
  | v => v

/-! ## Helper lemmas -/

theorem natDigitsAux_ne_nil (fuel n : Nat) : natDigitsAux (fuel + 1) n ≠ [] := by
  unfold natDigitsAux
  by_cases h : n < 10 <;> simp [h]

theorem natRepr_ne_empty (n : Nat) : natRepr n ≠ "" := by
  intro h
  exact natDigitsAux_ne_nil n n (congrArg String.data h)

theorem intRepr_ne_empty (n : Int) : intRepr n ≠ "" := by
  unfold intRepr
  by_cases h : n < 0
  · simp only [h, if_true]
    intro he
    have := congrArg String.data he
    simp [String.data_append] at this
  · simp only [h, if_false]
    exact natRepr_ne_empty n.natAbs

theorem jsonDumps_ne_empty (v : PyValue) : jsonDumps v ≠ "" := by
  cases v with
  | none => simp [jsonDumps]
  | bool b => cases b <;> simp [jsonDumps]
  | int n => exact intRepr_ne_empty n
  | str s =>
      intro h
      have := congrArg String.data h
      simp [jsonDumps, jsonQuote, String.data_append] at this
  | list xs =>
      intro h
      have := congrArg String.data h
      simp [jsonDumps, String.data_append] at this
  | dict kvs =>
      intro h
      have := congrArg String.data h
      simp [jsonDumps, String.data_append] at this

theorem channelOk_match (c : String) (h : channelOk c = true) :
    channelNameMatch c = true := by
  unfold channelOk at h
  exact (Bool.and_eq_true_iff.mp h).2

theorem validate_channel_of_ok (c : String) (h : channelOk c = true) :
    validate_channel c = .ok c := by
  unfold channelOk at h
  obtain ⟨h1, h2⟩ := Bool.and_eq_true_iff.mp h
  unfold validate_channel
  rw [if_neg (by simpa using of_decide_eq_true h1), h2]
  simp

theorem isOk_ok {e a : Type} (x : a) : (Except.ok x : Except e a).isOk = true := rfl

theorem isOk_error {e a : Type} (x : e) : (Except.error x : Except e a).isOk = false := rfl

theorem validate_channel_isOk (c : String) :
    (validate_channel c).isOk = true ↔ channelOk c = true := by
  simp only [channelOk, Bool.and_eq_true, decide_eq_true_eq]
  unfold validate_channel
  by_cases h1 : c.length > 200
  · rw [if_pos h1]
    simp [isOk_error]
    omega
  · rw [if_neg h1]
    by_cases h2 : channelNameMatch c
    · rw [h2]
      simp [isOk_ok, h2]
      omega
    · rw [Bool.not_eq_true] at h2
      rw [h2]
      simp [isOk_error, h2]

theorem validate_socket_id_of_ok (s : String) (h : socketIdMatch s = true) :
    validate_socket_id s = .ok s := by
  unfold validate_socket_id
  rw [h]
  simp

theorem mapValidate_of_ok (l : List String)
    (h : ∀ c ∈ l, channelOk c = true) : mapValidate l = .ok l := by
  induction l with
  | nil => rfl
  | cons c rest ih =>
      rw [mapValidate, validate_channel_of_ok c (h c (by simp)),
        ih fun x hx => h x (by simp [hx])]

theorem mapValidate_isOk (l : List String) :
    (mapValidate l).isOk = true ↔ ∀ c ∈ l, channelOk c = true := by
  induction l with
  | nil => simp [mapValidate, isOk_ok]
  | cons c rest ih =>
      rw [List.forall_mem_cons, ← ih, ← validate_channel_isOk]
      cases hv : validate_channel c <;> cases hm : mapValidate rest <;>
        simp [mapValidate, hv, hm, isOk_ok, isOk_error]

theorem validate_socket_id_isOk (s : String) :
    (validate_socket_id s).isOk = true ↔ socketIdMatch s = true := by
  unfold validate_socket_id
  by_cases h : socketIdMatch s = true <;> simp [h, isOk_ok, isOk_error]

theorem authenticate_valid_eq (client : PusherClient) (c s : String)
    (d : PyValue) (hc : channelOk c = true) (hs : socketIdMatch s = true) :
    authenticate client c s d =
      if d.truthy then
        .ok [("auth", client.key ++ ":" ++
                sign client.secret (s ++ ":" ++ c ++ ":" ++ jsonDumps d)),
             ("channel_data", jsonDumps d)]
      else
        .ok [("auth", client.key ++ ":" ++ sign client.secret (s ++ ":" ++ c))] := by
  simp only [authenticate, validate_channel_of_ok c hc,
    validate_socket_id_of_ok s hs, channelOk_match c hc, Bool.not_true,
    Bool.false_eq_true, if_false]
  by_cases hd : d.truthy = true
  · simp [hd, jsonDumps_ne_empty d]
  · rw [Bool.not_eq_true] at hd
    simp [hd]

theorem isOk_match_exc {e a b : Type} (x : Except e a) (f : a → b) :
    (match x with
     | .error er => (.error er : Except e b)
     | .ok v => .ok (f v)).isOk = x.isOk := by
  cases x <;> rfl

theorem socketParams_isOk (params : List (String × PyValue))
    (sid : Option String) :
    (socketParams params sid).isOk = true ↔
      ∀ s, sid = some s → s ≠ "" → socketIdMatch s = true := by
  cases sid with
  | none => simp [socketParams, isOk_ok]
  | some s =>
      by_cases hne : s = ""
      · subst hne
        simp [socketParams, isOk_ok]
      · by_cases hsm : socketIdMatch s = true
        · simp [socketParams, if_pos hne, validate_socket_id_of_ok s hsm,
            isOk_ok, hsm]
        · rw [Bool.not_eq_true] at hsm
          simp [socketParams, if_pos hne, validate_socket_id, hsm, isOk_error, hne]

theorem trigger_list_eq (client : PusherClient) (channels : List String)
    (e : String) (d : PyValue) (sid : Option String) :
    trigger client (.list channels) e d sid =
      if channels.length > 10 then .error .tooManyChannels
      else
        match mapValidate channels with
        | .error er => .error er
        | .ok chans =>
            if e.length > 200 then .error .eventNameTooLong
            else if (data_to_string d).length > 10240 then .error .tooMuchData
            else
              match socketParams
                  [("name", PyValue.str e),
                   ("channels", PyValue.list (chans.map PyValue.str)),
                   ("data", PyValue.str (data_to_string d))] sid with
              | .error er => .error er
              | .ok ps =>
                  .ok ⟨.POST, "/apps/" ++ client.app_id ++ "/events", ps⟩ := rfl

theorem trigger_isOk_iff (client : PusherClient) (channels : List String)
    (e : String) (d : PyValue) (sid : Option String) :
    (trigger client (.list channels) e d sid).isOk = true ↔
      (channels.length ≤ 10 ∧ (∀ c ∈ channels, channelOk c = true) ∧
       e.length ≤ 200 ∧ (data_to_string d).length ≤ 10240 ∧
       ∀ s, sid = some s → s ≠ "" → socketIdMatch s = true) := by
  rw [trigger_list_eq]
  by_cases h10 : channels.length > 10
  · rw [if_pos h10]
    simp [isOk_error]
    omega
  · rw [if_neg h10]
    cases hm : mapValidate channels with
    | error er =>
        have hnall : ¬ ∀ c ∈ channels, channelOk c = true := by
          intro hall
          have := (mapValidate_isOk channels).mpr hall
          rw [hm] at this
          exact absurd this (by simp [isOk_error])
        simp [isOk_error, hnall]
    | ok chans =>
        have hall : ∀ c ∈ channels, channelOk c = true :=
          (mapValidate_isOk channels).mp (by rw [hm]; rfl)
        dsimp only
        by_cases he : e.length > 200
        · rw [if_pos he]
          simp [isOk_error]
          omega
        · rw [if_neg he]
          by_cases hd : (data_to_string d).length > 10240
          · rw [if_pos hd]
            simp [isOk_error]
            omega
          · rw [if_neg hd]
            cases hsp : socketParams
                [("name", PyValue.str e),
                 ("channels", PyValue.list (chans.map PyValue.str)),
                 ("data", PyValue.str (data_to_string d))] sid with
            | error er =>
                have hns : ¬ ∀ s, sid = some s → s ≠ "" → socketIdMatch s = true := by
                  intro hs
                  have hx := (socketParams_isOk
                    [("name", PyValue.str e),
                     ("channels", PyValue.list (chans.map PyValue.str)),
                     ("data", PyValue.str (data_to_string d))] sid).mpr hs
                  rw [hsp] at hx
                  exact absurd hx (by simp [isOk_error])
                simp [isOk_error, hall, hns]
            | ok ps =>
                have hsid := (socketParams_isOk
                    [("name", PyValue.str e),
                     ("channels", PyValue.list (chans.map PyValue.str)),
                     ("data", PyValue.str (data_to_string d))] sid).mp
                  (by rw [hsp]; rfl)
                simp only [isOk_ok, true_iff]
                exact ⟨by omega, hall, by omega, by omega, fun s hs hne => hsid s hs hne⟩

theorem validate_webhook_genuine (client : PusherClient) (now : Int)
    (b : String) :
    validate_webhook client now client.key (sign client.secret b) b =
      webhookPostVerify now b := by
  unfold validate_webhook verify
  simp

theorem two_pow_53_lt_cutoff : (2 : Nat) ^ 53 < 2 ^ 1024 - 2 ^ 970 := by
  have h1 : (2 : Nat) ^ 970 + 2 ^ 970 = 2 ^ 971 := by
    rw [← two_mul, ← pow_succ']
  have h2 : (2 : Nat) ^ 971 ≤ 2 ^ 1024 := Nat.pow_le_pow_right (by norm_num) (by norm_num)
  have h3 : (2 : Nat) ^ 53 < 2 ^ 970 := Nat.pow_lt_pow_right (by norm_num) (by norm_num)
  omega

theorem webhookPostVerify_char (now : Int) (b : String)
    (hb : tameBody b = true) :
    (webhookPostVerify now b = .ok Option.none ↔
      ((jsonLoads b).isOk = false ∨ timeMsOf b = Option.none ∨
       timeMsOf b = some (.int 0) ∨
       ∃ t : Int, timeMsOf b = some (.int t) ∧ (now - t).natAbs > 300000)) ∧
    ∀ v, jsonLoads b = .ok v →
      webhookPostVerify now b = .ok Option.none ∨
      webhookPostVerify now b = .ok (some v) := by
  unfold tameBody at hb
  unfold webhookPostVerify timeMsOf
  cases hjl : jsonLoads b with
  | error er =>
      rw [hjl] at hb
      cases er <;> simp_all [isOk_error]
  | ok v =>
      rw [hjl] at hb
      cases v with
      | dict kvs =>
          dsimp only at hb ⊢
          cases hlk : kvs.lookup "time_ms" with
          | none => simp [pyGet, hlk, PyValue.truthy, isOk_ok]
          | some tv =>
              rw [hlk] at hb
              cases tv with
              | int t =>
                  have ht53 : t.natAbs < 2 ^ 53 := by
                    dsimp only at hb
                    exact of_decide_eq_true hb
                  have h1024 : t.natAbs < 2 ^ 1024 - 2 ^ 970 :=
                    lt_trans ht53 two_pow_53_lt_cutoff
                  by_cases ht : t = 0
                  · subst ht
                    simp [pyGet, hlk, PyValue.truthy, isOk_ok]
                  · have htr : (PyValue.int t).truthy = true := by
                      simp [PyValue.truthy, ht]
                    by_cases hst : (now - t).natAbs > 300000
                    · simp [pyGet, hlk, htr, pyNum, hst, isOk_ok, ht, h1024]
                    · simp [pyGet, hlk, htr, pyNum, hst, isOk_ok, ht, h1024]
              | none => simp at hb
              | bool bb => simp at hb
              | str ss => simp at hb
              | list xs => simp at hb
              | dict ds => simp at hb
      | none => simp at hb
      | bool bb => simp at hb
      | int n => simp at hb
      | str ss => simp at hb
      | list xs => simp at hb

theorem mapEncode_of_encodable (batch : List PyValue)
    (h : ∀ ev ∈ batch, eventEncodable ev = true) :
    mapEncode batch = .ok (batch.map setDataField) := by
  induction batch with
  | nil => rfl
  | cons ev rest ih =>
      have hev := h ev (by simp)
      have hrest := ih fun x hx => h x (by simp [hx])
      cases ev with
      | dict kvs =>
          cases hlk : kvs.lookup "data" with
          | none => simp [eventEncodable, hlk] at hev
          | some dv =>
              rw [mapEncode, encodeEvent, hlk, hrest]
              simp [setDataField, hlk]
      | none => simp [eventEncodable] at hev
      | bool bb => simp [eventEncodable] at hev
      | int n => simp [eventEncodable] at hev
      | str ss => simp [eventEncodable] at hev
      | list xs => simp [eventEncodable] at hev

theorem validate_channel_error (c : String) (er : PyError)
    (h : validate_channel c = .error er) : er = .invalidChannel c := by
  unfold validate_channel at h
  split at h
  · simp at h
    exact h.symm
  · split at h
    · simp at h
      exact h.symm
    · simp at h

theorem mapValidate_error (l : List String) (er : PyError)
    (h : mapValidate l = .error er) : ∃ c, er = .invalidChannel c := by
  induction l generalizing er with
  | nil => simp [mapValidate] at h
  | cons c rest ih =>
      rw [mapValidate] at h
      cases hv : validate_channel c with
      | error e2 =>
          rw [hv] at h
          simp at h
          subst h
          exact ⟨c, validate_channel_error c e2 hv⟩
      | ok c2 =>
          rw [hv] at h
          dsimp only at h
          cases hm : mapValidate rest with
          | error e3 =>
              rw [hm] at h
              simp at h
              subst h
              exact ih e3 hm
          | ok rr =>
              rw [hm] at h
              simp at h

theorem validate_socket_id_error (s : String) (er : PyError)
    (h : validate_socket_id s = .error er) : er = .invalidSocketId s := by
  unfold validate_socket_id at h
  split at h
  · simp at h
  · simp at h
    exact h.symm

theorem socketParams_error (params : List (String × PyValue))
    (sid : Option String) (er : PyError)
    (h : socketParams params sid = .error er) : ∃ s, er = .invalidSocketId s := by
  cases sid with
  | none => simp [socketParams] at h
  | some s =>
      unfold socketParams at h
      dsimp only at h
      by_cases hne : s = ""
      · simp [hne] at h
      · rw [if_pos hne] at h
        cases hv : validate_socket_id s with
        | error e2 =>
            rw [hv] at h
            simp at h
            exact ⟨s, h ▸ validate_socket_id_error s e2 hv⟩
        | ok s2 =>
            rw [hv] at h
            simp at h

theorem webhookPostVerify_isOk (now : Int) (b : String)
    (hb : tameBody b = true) : (webhookPostVerify now b).isOk = true := by
  have h := webhookPostVerify_char now b hb
  cases hjl : jsonLoads b with
  | error er =>
      unfold tameBody at hb
      rw [hjl] at hb
      unfold webhookPostVerify
      rw [hjl]
      cases er <;> simp_all [isOk_ok]
  | ok v =>
      rcases h.2 v hjl with h1 | h1 <;> rw [h1] <;> rfl

/-! ## The claims -/

/-- Claim C1: for a valid channel `c` and socket id `s`,
`authenticate c s` returns a dict whose `auth` value is
`key ++ ":" ++ sign secret (s ++ ":" ++ c)` — the lowercase-hex
HMAC-SHA256 of `s:c` under the secret — with no `channel_data` key; with
(truthy) custom data `d` the signed string becomes
`s ++ ":" ++ c ++ ":" ++ jsonDumps d` and the result additionally maps
`channel_data` to `jsonDumps d`. -/
theorem authenticate_token_format (client : PusherClient) (c s : String)
    (hc : channelOk c = true) (hs : socketIdMatch s = true) :
    authenticate client c s PyValue.none =
      .ok [("auth", client.key ++ ":" ++ sign client.secret (s ++ ":" ++ c))] ∧
    ∀ d : PyValue, d.truthy = true →
      authenticate client c s d =
        .ok [("auth", client.key ++ ":" ++
                sign client.secret (s ++ ":" ++ c ++ ":" ++ jsonDumps d)),
             ("channel_data", jsonDumps d)] := by
  constructor
  · simpa using authenticate_valid_eq client c s PyValue.none hc hs
  · intro d hd
    simpa [hd] using authenticate_valid_eq client c s d hc hs

/-- Witness for C1 at `channel = "private-foo"`, `socket_id = "123.456"`
and custom data `{"user_id": "u"}`. -/
theorem authenticate_token_format_witness :
    channelOk "private-foo" = true ∧ socketIdMatch "123.456" = true ∧
    (PyValue.dict [("user_id", PyValue.str "u")]).truthy = true ∧
    authenticate ⟨"4", "key", "secret"⟩ "private-foo" "123.456" PyValue.none =
      .ok [("auth", "key" ++ ":" ++ sign "secret" ("123.456" ++ ":" ++ "private-foo"))] ∧
    authenticate ⟨"4", "key", "secret"⟩ "private-foo" "123.456"
        (PyValue.dict [("user_id", PyValue.str "u")]) =
      .ok [("auth", "key" ++ ":" ++
              sign "secret" ("123.456" ++ ":" ++ "private-foo" ++ ":" ++
                jsonDumps (PyValue.dict [("user_id", PyValue.str "u")]))),
           ("channel_data", jsonDumps (PyValue.dict [("user_id", PyValue.str "u")]))] := by
  refine ⟨by decide, by decide, by decide, ?_, ?_⟩
  · exact (authenticate_token_format ⟨"4", "key", "secret"⟩ "private-foo"
      "123.456" (by decide) (by decide)).1
  · exact (authenticate_token_format ⟨"4", "key", "secret"⟩ "private-foo"
      "123.456" (by decide) (by decide)).2
      (PyValue.dict [("user_id", PyValue.str "u")]) (by decide)

/-- Claim C9: a lone channel-name string is treated exactly as the
one-element channel list: `trigger` gives the same request description or
the same error on both. -/
theorem trigger_single_string_channel (client : PusherClient) (c e : String)
    (d : PyValue) (sid : Option String) :
    trigger client (.str c) e d sid = trigger client (.list [c]) e d sid := rfl

/-- Claim C10: a falsy supplied `custom_data` (such as the empty dict)
behaves exactly as an absent one: the call is equal to the `None` call,
and on valid inputs the result carries only the `auth` key with the
unsuffixed signed string. -/
theorem authenticate_falsy_custom_data (client : PusherClient) (c s : String)
    (d : PyValue) (hd : d.truthy = false) :
    authenticate client c s d = authenticate client c s PyValue.none ∧
    (channelOk c = true → socketIdMatch s = true →
      authenticate client c s d =
        .ok [("auth", client.key ++ ":" ++ sign client.secret (s ++ ":" ++ c))]) := by
  constructor
  · unfold authenticate
    cases hv : validate_channel c with
    | error e2 => rfl
    | ok ch =>
        dsimp only
        rw [hd]
        simp [PyValue.truthy]
  · intro hc hs
    rw [authenticate_valid_eq client c s d hc hs, hd]
    simp

/-- Witness for C10 at the supplied-but-falsy custom data `{}`. -/
theorem authenticate_falsy_custom_data_witness :
    (PyValue.dict []).truthy = false ∧
    authenticate ⟨"4", "key", "secret"⟩ "private-foo" "123.456" (PyValue.dict []) =
      authenticate ⟨"4", "key", "secret"⟩ "private-foo" "123.456" PyValue.none ∧
    authenticate ⟨"4", "key", "secret"⟩ "private-foo" "123.456" (PyValue.dict []) =
      .ok [("auth", "key" ++ ":" ++ sign "secret" ("123.456" ++ ":" ++ "private-foo"))] := by
  refine ⟨by decide, ?_, ?_⟩
  · exact (authenticate_falsy_custom_data ⟨"4", "key", "secret"⟩ "private-foo"
      "123.456" (PyValue.dict []) (by decide)).1
  · exact (authenticate_falsy_custom_data ⟨"4", "key", "secret"⟩ "private-foo"
      "123.456" (PyValue.dict []) (by decide)).2 (by decide) (by decide)

/-- Claim C8: `trigger_batch` with `already_encoded = true` passes the
event list through byte-for-byte unchanged; with `already_encoded = false`
it replaces exactly the `data` member of each event by its serialized
string form (`setDataField`) and alters no other member. -/
theorem trigger_batch_encoding (client : PusherClient) (batch : List PyValue)
    (h : ∀ ev ∈ batch, eventEncodable ev = true) :
    trigger_batch client batch true =
      .ok ⟨.POST, "/apps/" ++ client.app_id ++ "/batch_events",
           [("batch", PyValue.list batch)]⟩ ∧
    trigger_batch client batch false =
      .ok ⟨.POST, "/apps/" ++ client.app_id ++ "/batch_events",
           [("batch", PyValue.list (batch.map setDataField))]⟩ := by
  refine ⟨rfl, ?_⟩
  unfold trigger_batch
  rw [if_neg (by simp), mapEncode_of_encodable batch h]

/-- Witness for C8 on a one-event batch carrying `channel`, `name` and a
structured `data` member. -/
theorem trigger_batch_encoding_witness :
    eventEncodable (PyValue.dict [("channel", PyValue.str "c"),
      ("name", PyValue.str "e"), ("data", PyValue.dict [("k", PyValue.int 1)])]) = true ∧
    trigger_batch ⟨"4", "k", "s"⟩
        [PyValue.dict [("channel", PyValue.str "c"), ("name", PyValue.str "e"),
          ("data", PyValue.dict [("k", PyValue.int 1)])]] true =
      .ok ⟨.POST, "/apps/" ++ "4" ++ "/batch_events",
           [("batch", PyValue.list [PyValue.dict [("channel", PyValue.str "c"),
              ("name", PyValue.str "e"), ("data", PyValue.dict [("k", PyValue.int 1)])]])]⟩ ∧
    trigger_batch ⟨"4", "k", "s"⟩
        [PyValue.dict [("channel", PyValue.str "c"), ("name", PyValue.str "e"),
          ("data", PyValue.dict [("k", PyValue.int 1)])]] false =
      .ok ⟨.POST, "/apps/" ++ "4" ++ "/batch_events",
           [("batch", PyValue.list ([PyValue.dict [("channel", PyValue.str "c"),
              ("name", PyValue.str "e"), ("data", PyValue.dict [("k", PyValue.int 1)])]].map
                setDataField))]⟩ := by
  have hh : ∀ ev ∈ [PyValue.dict [("channel", PyValue.str "c"),
      ("name", PyValue.str "e"), ("data", PyValue.dict [("k", PyValue.int 1)])]],
      eventEncodable ev = true := by
    intro ev hev
    rw [List.mem_singleton] at hev
    subst hev
    rfl
  refine ⟨rfl, ?_, ?_⟩
  · exact (trigger_batch_encoding ⟨"4", "k", "s"⟩ _ hh).1
  · exact (trigger_batch_encoding ⟨"4", "k", "s"⟩ _ hh).2

/-- Claim C5: with otherwise-valid inputs, `trigger` fails with the
too-many-channels error exactly when more than 10 channels are targeted,
and succeeds at 10 or fewer: the bound 10 is inclusive. -/
theorem trigger_channel_count_bound (client : PusherClient)
    (channels : List String) (e : String) (d : PyValue)
    (hch : ∀ c ∈ channels, channelOk c = true) (he : e.length ≤ 200)
    (hd : (data_to_string d).length ≤ 10240) :
    (trigger client (.list channels) e d Option.none = .error .tooManyChannels ↔
       channels.length > 10) ∧
    (channels.length ≤ 10 →
       (trigger client (.list channels) e d Option.none).isOk = true) := by
  have hok := trigger_isOk_iff client channels e d Option.none
  constructor
  · constructor
    · intro herr
      by_contra hgt
      push_neg at hgt
      have hok2 : (trigger client (.list channels) e d Option.none).isOk = true :=
        hok.mpr ⟨by omega, hch, he, hd, by simp⟩
      rw [herr] at hok2
      simp [isOk_error] at hok2
    · intro hgt
      rw [trigger_list_eq, if_pos hgt]
  · intro hle
    exact hok.mpr ⟨hle, hch, he, hd, by simp⟩

/-- Witness for C5: 11 copies of a valid channel fail, 10 succeed. -/
theorem trigger_channel_count_bound_witness :
    trigger ⟨"4", "k", "s"⟩ (.list (List.replicate 11 "c")) "e" (.str "x")
      Option.none = .error .tooManyChannels ∧
    (trigger ⟨"4", "k", "s"⟩ (.list (List.replicate 10 "c")) "e" (.str "x")
      Option.none).isOk = true := by
  constructor
  · exact (trigger_channel_count_bound ⟨"4", "k", "s"⟩ (List.replicate 11 "c")
      "e" (.str "x") (by decide) (by decide) (by decide)).1.mpr (by decide)
  · exact (trigger_channel_count_bound ⟨"4", "k", "s"⟩ (List.replicate 10 "c")
      "e" (.str "x") (by decide) (by decide) (by decide)).2 (by decide)

/-- Claim C2 counterexample: at the JSON body `"7"` (valid JSON, not an
object) with matching key and genuine signature, the claim's conditions
say the result is null (the parsed body has no `time_ms` field), but
`validate_webhook` raises an `AttributeError` from `body_data.get`. -/
theorem validate_webhook_nonobject_cex :
    validate_webhook ⟨"4", "key", "secret"⟩ 0 "key" (sign "secret" "7") "7" =
      .error (.attributeError "get") ∧
    timeMsOf "7" = Option.none :=
  ⟨(validate_webhook_genuine ⟨"4", "key", "secret"⟩ 0 "7").trans rfl, rfl⟩

/-- Claim C2 (amended): on the faithful domain — a clock below `2^53`
and a body that fails to parse or parses to a JSON object whose
`time_ms` member, if present, is an integer below `2^53` (`tameBody`) —
`validate_webhook` returns null exactly when the key mismatches, the
signature does not verify, the body is invalid JSON, `time_ms` is
missing or zero, or `|now - time_ms| > 300000`; otherwise it returns the
parsed body.  Outside that domain the source can raise instead: a
non-object body raises `AttributeError` (see the counterexample), a
truthy non-numeric `time_ms` raises `TypeError`, and an integer
`time_ms` beyond the double range raises `OverflowError` from the float
coercion; float-valued documents lie outside the embedding. -/
theorem validate_webhook_null_iff (client : PusherClient) (now : Int)
    (k sig b : String) (hnow : now.natAbs < 2 ^ 53) (hb : tameBody b = true) :
    (validate_webhook client now k sig b = .ok Option.none ↔
       (k ≠ client.key ∨ verify client.secret b sig = false ∨
        (jsonLoads b).isOk = false ∨ timeMsOf b = Option.none ∨
        timeMsOf b = some (.int 0) ∨
        ∃ t : Int, timeMsOf b = some (.int t) ∧ (now - t).natAbs > 300000)) ∧
    ∀ v, jsonLoads b = .ok v →
      validate_webhook client now k sig b = .ok Option.none ∨
      validate_webhook client now k sig b = .ok (some v) := by
  unfold validate_webhook
  by_cases hk : k = client.key
  · subst hk
    rw [if_neg fun h => h rfl]
    cases hv : verify client.secret b sig with
    | false =>
        rw [if_pos (show (!false) = true from rfl)]
        constructor
        · simp
        · intro v hjl
          left
          rfl
    | true =>
        rw [if_neg (by simp)]
        have hch := webhookPostVerify_char now b hb
        constructor
        · rw [hch.1]
          simp
        · exact hch.2
  · rw [if_pos hk]
    refine ⟨⟨fun _ => Or.inl hk, fun _ => rfl⟩, fun v hjl => Or.inl rfl⟩

/-- Witness for C2 (amended) at an unparseable body and a mismatched
key. -/
theorem validate_webhook_null_iff_witness :
    (0 : Int).natAbs < 2 ^ 53 ∧ tameBody "nope" = true ∧
    validate_webhook ⟨"4", "key", "secret"⟩ 0 "other" "x" "nope" =
      .ok Option.none :=
  ⟨by norm_num, rfl,
   (validate_webhook_null_iff ⟨"4", "key", "secret"⟩ 0 "other" "x" "nope"
     (by norm_num) rfl).1.mpr (Or.inl (by decide))⟩

/-- Claim C3 counterexample: the body `"[1, 2]"` parses as a JSON array;
with matching key and genuine signature `validate_webhook` raises an
`AttributeError` (`list` has no `.get`) instead of returning null. -/
theorem validate_webhook_raises_on_array :
    validate_webhook ⟨"4", "key", "secret"⟩ 0 "key"
      (sign "secret" "[1, 2]") "[1, 2]" = .error (.attributeError "get") :=
  (validate_webhook_genuine ⟨"4", "key", "secret"⟩ 0 "[1, 2]").trans rfl

/-- Claim C3 (amended): `validate_webhook` never raises — every
rejection returns null — on the faithful domain: a clock below `2^53`
and a body that fails to parse as JSON or parses to a JSON object whose
`time_ms` member, if present, is an integer below `2^53`.  Outside that
domain the source raises: non-object JSON values raise `AttributeError`
from `body_data.get` (see the counterexample), a truthy non-numeric
`time_ms` raises `TypeError`, and an integer `time_ms` beyond the double
range raises `OverflowError` from the float coercion. -/
theorem validate_webhook_total_on_tame (client : PusherClient) (now : Int)
    (k sig b : String) (hnow : now.natAbs < 2 ^ 53) (hb : tameBody b = true) :
    (validate_webhook client now k sig b).isOk = true := by
  unfold validate_webhook
  by_cases hk : k ≠ client.key
  · rw [if_pos hk]
    rfl
  · rw [if_neg hk]
    cases hv : verify client.secret b sig with
    | false =>
        rw [if_pos (show (!false) = true from rfl)]
        rfl
    | true =>
        rw [if_neg (by simp)]
        exact webhookPostVerify_isOk now b hb

/-- Witness for C3 (amended) at an object body with a bad signature. -/
theorem validate_webhook_total_on_tame_witness :
    (0 : Int).natAbs < 2 ^ 53 ∧ tameBody "\x7b\"a\": 1\x7d" = true ∧
    (validate_webhook ⟨"4", "key", "secret"⟩ 0 "key" "bad"
      "\x7b\"a\": 1\x7d").isOk = true :=
  ⟨by norm_num, rfl,
   validate_webhook_total_on_tame ⟨"4", "key", "secret"⟩ 0 "key" "bad"
     "\x7b\"a\": 1\x7d" (by norm_num) rfl⟩

/-- Claim C4 counterexample: a data string of one 2-byte character and
10239 ASCII characters serializes to 10241 UTF-8 bytes — the claim says
`trigger` must fail — yet `trigger` accepts it, because the source checks
`len(data)`, the character count (10240 here), not the byte length. -/
theorem trigger_byte_size_cex :
    utf8Len (data_to_string (PyValue.str (String.mk
      (Char.ofNat 233 :: List.replicate 10239 'a')))) = 10241 ∧
    (String.mk (Char.ofNat 233 :: List.replicate 10239 'a')).length = 10240 ∧
    (trigger ⟨"4", "k", "s"⟩ (.list ["c"]) "e"
       (PyValue.str (String.mk (Char.ofNat 233 :: List.replicate 10239 'a')))
       Option.none).isOk = true := by
  have hlen : (String.mk (Char.ofNat 233 :: List.replicate 10239 'a')).length = 10240 := by
    show (Char.ofNat 233 :: List.replicate 10239 'a').length = 10240
    rw [List.length_cons, List.length_replicate]
  refine ⟨?_, hlen, ?_⟩
  · show (((Char.ofNat 233 :: List.replicate 10239 'a').map charUtf8).flatten).length = 10241
    rw [List.map_cons, List.map_replicate, List.flatten_cons, List.length_append,
      List.length_flatten, List.map_replicate,
      show (charUtf8 (Char.ofNat 233)).length = 2 from rfl,
      show (charUtf8 'a').length = 1 from rfl, List.sum_replicate, smul_eq_mul]
  · exact (trigger_isOk_iff ⟨"4", "k", "s"⟩ ["c"] "e"
      (PyValue.str (String.mk (Char.ofNat 233 :: List.replicate 10239 'a')))
      Option.none).mpr
      ⟨by decide, by decide, by decide, by
        show (String.mk (Char.ofNat 233 :: List.replicate 10239 'a')).length ≤ 10240
        omega, by simp⟩

/-- Claim C4 (amended): with otherwise-valid inputs, `trigger` fails with
the payload-too-large error exactly when the serialized data exceeds
10240 characters (Python's `len` on the serialized string), and succeeds
at 10240 characters or fewer: the inclusive bound 10240 is on the
character count, which equals the byte count only for ASCII payloads. -/
theorem trigger_payload_char_bound (client : PusherClient)
    (channels : List String) (e : String) (d : PyValue)
    (h10 : channels.length ≤ 10) (hch : ∀ c ∈ channels, channelOk c = true)
    (he : e.length ≤ 200) :
    (trigger client (.list channels) e d Option.none = .error .tooMuchData ↔
       (data_to_string d).length > 10240) ∧
    ((data_to_string d).length ≤ 10240 →
       (trigger client (.list channels) e d Option.none).isOk = true) := by
  have hok := trigger_isOk_iff client channels e d Option.none
  constructor
  · constructor
    · intro herr
      by_contra hgt
      push_neg at hgt
      have hok2 : (trigger client (.list channels) e d Option.none).isOk = true :=
        hok.mpr ⟨h10, hch, he, hgt, by simp⟩
      rw [herr] at hok2
      simp [isOk_error] at hok2
    · intro hgt
      rw [trigger_list_eq, if_neg (by omega), mapValidate_of_ok channels hch]
      dsimp only
      rw [if_neg (by omega), if_pos hgt]
  · intro hle
    exact hok.mpr ⟨h10, hch, he, hle, by simp⟩

/-- Witness for C4 (amended): 10241 characters fail, 10240 succeed. -/
theorem trigger_payload_char_bound_witness :
    trigger ⟨"4", "k", "s"⟩ (.list ["c"]) "e"
      (PyValue.str (String.mk (List.replicate 10241 'a'))) Option.none =
      .error .tooMuchData ∧
    (trigger ⟨"4", "k", "s"⟩ (.list ["c"]) "e"
      (PyValue.str (String.mk (List.replicate 10240 'a'))) Option.none).isOk =
      true := by
  have h1 : (String.mk (List.replicate 10241 'a')).length = 10241 := by
    show (List.replicate 10241 'a').length = 10241
    rw [List.length_replicate]
  have h2 : (String.mk (List.replicate 10240 'a')).length = 10240 := by
    show (List.replicate 10240 'a').length = 10240
    rw [List.length_replicate]
  constructor
  · exact (trigger_payload_char_bound ⟨"4", "k", "s"⟩ ["c"] "e"
      (PyValue.str (String.mk (List.replicate 10241 'a')))
      (by decide) (by decide) (by decide)).1.mpr (by
        show (String.mk (List.replicate 10241 'a')).length > 10240
        omega)
  · exact (trigger_payload_char_bound ⟨"4", "k", "s"⟩ ["c"] "e"
      (PyValue.str (String.mk (List.replicate 10240 'a')))
      (by decide) (by decide) (by decide)).2 (by
        show (String.mk (List.replicate 10240 'a')).length ≤ 10240
        omega)

/-- Claim C6: `trigger` succeeds exactly when every validation constraint
holds (channel count, channel names, event-name length, serialized data
length, socket id); on any violation the result is one of the typed
validation errors and no request description is produced — in this pure
embedding an error result carries no `Request` and the client state is an
immutable credential record. -/
theorem trigger_fail_fast (client : PusherClient) (channels : List String)
    (e : String) (d : PyValue) (sid : Option String) :
    ((trigger client (.list channels) e d sid).isOk = true ↔
      (channels.length ≤ 10 ∧ (∀ c ∈ channels, channelOk c = true) ∧
       e.length ≤ 200 ∧ (data_to_string d).length ≤ 10240 ∧
       ∀ s, sid = some s → s ≠ "" → socketIdMatch s = true)) ∧
    ∀ er, trigger client (.list channels) e d sid = .error er →
      er = .tooManyChannels ∨ (∃ ch, er = .invalidChannel ch) ∨
      er = .eventNameTooLong ∨ er = .tooMuchData ∨
      ∃ sd, er = .invalidSocketId sd := by
  refine ⟨trigger_isOk_iff client channels e d sid, ?_⟩
  intro er herr
  rw [trigger_list_eq] at herr
  by_cases h10 : channels.length > 10
  · rw [if_pos h10] at herr
    simp at herr
    exact Or.inl herr.symm
  · rw [if_neg h10] at herr
    cases hm : mapValidate channels with
    | error e2 =>
        rw [hm] at herr
        simp at herr
        subst herr
        exact Or.inr (Or.inl (mapValidate_error channels e2 hm))
    | ok chans =>
        rw [hm] at herr
        dsimp only at herr
        by_cases he : e.length > 200
        · rw [if_pos he] at herr
          simp at herr
          exact Or.inr (Or.inr (Or.inl herr.symm))
        · rw [if_neg he] at herr
          by_cases hd : (data_to_string d).length > 10240
          · rw [if_pos hd] at herr
            simp at herr
            exact Or.inr (Or.inr (Or.inr (Or.inl herr.symm)))
          · rw [if_neg hd] at herr
            cases hsp : socketParams [("name", PyValue.str e),
                ("channels", PyValue.list (chans.map PyValue.str)),
                ("data", PyValue.str (data_to_string d))] sid with
            | error e3 =>
                rw [hsp] at herr
                simp at herr
                subst herr
                exact Or.inr (Or.inr (Or.inr (Or.inr
                  (socketParams_error _ sid e3 hsp))))
            | ok ps =>
                rw [hsp] at herr
                simp at herr

/-- Witness for C6 at a failing instance: 11 channels give the typed
too-many-channels error. -/
theorem trigger_fail_fast_witness :
    trigger ⟨"4", "k", "s"⟩ (.list (List.replicate 11 "chan")) "e" (.str "x")
      Option.none = .error .tooManyChannels ∧
    (PyError.tooManyChannels = PyError.tooManyChannels ∨
     (∃ ch, PyError.tooManyChannels = PyError.invalidChannel ch) ∨
     PyError.tooManyChannels = PyError.eventNameTooLong ∨
     PyError.tooManyChannels = PyError.tooMuchData ∨
     ∃ sd, PyError.tooManyChannels = PyError.invalidSocketId sd) :=
  ⟨rfl, (trigger_fail_fast ⟨"4", "k", "s"⟩ (List.replicate 11 "chan") "e"
    (.str "x") Option.none).2 .tooManyChannels rfl⟩

/-- Claim C7: the five operations build their requests with exactly these
method/path pairs, `app_id` substituted: `trigger` posts to
`/apps/{app_id}/events`, `trigger_batch` to `/apps/{app_id}/batch_events`;
`channels_info` gets `/apps/{app_id}/channels`, `channel_info`
`/apps/{app_id}/channels/{channel}` and `users_info`
`/apps/{app_id}/channels/{channel}/users`. -/
theorem request_method_paths (client : PusherClient) :
    (∀ ch e d sid r, trigger client ch e d sid = .ok r →
        r.method = .POST ∧ r.path = "/apps/" ++ client.app_id ++ "/events") ∧
    (∀ batch enc r, trigger_batch client batch enc = .ok r →
        r.method = .POST ∧
        r.path = "/apps/" ++ client.app_id ++ "/batch_events") ∧
    (∀ pf attrs, (channels_info client pf attrs).method = .GET ∧
        (channels_info client pf attrs).path =
          "/apps/" ++ client.app_id ++ "/channels") ∧
    (∀ c attrs r, channel_info client c attrs = .ok r →
        r.method = .GET ∧
        r.path = "/apps/" ++ client.app_id ++ "/channels/" ++ c) ∧
    (∀ c r, users_info client c = .ok r →
        r.method = .GET ∧
        r.path = "/apps/" ++ client.app_id ++ "/channels/" ++ c ++ "/users") := by
  have htr : ∀ channels e d sid r,
      trigger client (.list channels) e d sid = .ok r →
      r.method = .POST ∧ r.path = "/apps/" ++ client.app_id ++ "/events" := by
    intro channels e d sid r h2
    rw [trigger_list_eq] at h2
    by_cases h10 : channels.length > 10
    · rw [if_pos h10] at h2
      simp at h2
    · rw [if_neg h10] at h2
      cases hm : mapValidate channels with
      | error e2 =>
          rw [hm] at h2
          simp at h2
      | ok chans =>
          rw [hm] at h2
          dsimp only at h2
          by_cases he : e.length > 200
          · rw [if_pos he] at h2
            simp at h2
          · rw [if_neg he] at h2
            by_cases hd : (data_to_string d).length > 10240
            · rw [if_pos hd] at h2
              simp at h2
            · rw [if_neg hd] at h2
              cases hsp : socketParams [("name", PyValue.str e),
                  ("channels", PyValue.list (chans.map PyValue.str)),
                  ("data", PyValue.str (data_to_string d))] sid with
              | error e3 =>
                  rw [hsp] at h2
                  simp at h2
              | ok ps =>
                  rw [hsp] at h2
                  simp only [Except.ok.injEq] at h2
                  subst h2
                  exact ⟨rfl, rfl⟩
  refine ⟨?_, ?_, ?_, ?_, ?_⟩
  · intro ch e d sid r h
    cases ch with
    | str s => exact htr [s] e d sid r h
    | list l => exact htr l e d sid r h
    | dict kvs => simp [trigger, channelsList] at h
  · intro batch enc r h
    unfold trigger_batch at h
    cases hb2 : (if enc = true then Except.ok batch else mapEncode batch) with
    | error e2 =>
        rw [hb2] at h
        simp at h
    | ok bs =>
        rw [hb2] at h
        simp only [Except.ok.injEq] at h
        subst h
        exact ⟨rfl, rfl⟩
  · intro pf attrs
    exact ⟨rfl, rfl⟩
  · intro c attrs r h
    unfold channel_info at h
    cases hv : validate_channel c with
    | error e2 =>
        rw [hv] at h
        simp at h
    | ok c2 =>
        rw [hv] at h
        simp only [Except.ok.injEq] at h
        subst h
        exact ⟨rfl, rfl⟩
  · intro c r h
    unfold users_info at h
    cases hv : validate_channel c with
    | error e2 =>
        rw [hv] at h
        simp at h
    | ok c2 =>
        rw [hv] at h
        simp only [Except.ok.injEq] at h
        subst h
        exact ⟨rfl, rfl⟩

/-- Witness for C7: a successful request of each fallible operation,
named explicitly, with its method and path read back through the
theorem. -/
theorem request_method_paths_witness :
    trigger ⟨"4", "k", "s"⟩ (.list ["c"]) "e" (.str "x") Option.none =
      .ok ⟨.POST, "/apps/" ++ "4" ++ "/events",
           [("name", PyValue.str "e"), ("channels", PyValue.list [PyValue.str "c"]),
            ("data", PyValue.str "x")]⟩ ∧
    (Request.mk .POST ("/apps/" ++ "4" ++ "/events")
        [("name", PyValue.str "e"), ("channels", PyValue.list [PyValue.str "c"]),
         ("data", PyValue.str "x")]).method = .POST ∧
    (Request.mk .POST ("/apps/" ++ "4" ++ "/events")
        [("name", PyValue.str "e"), ("channels", PyValue.list [PyValue.str "c"]),
         ("data", PyValue.str "x")]).path = "/apps/" ++ "4" ++ "/events" ∧
    trigger_batch ⟨"4", "k", "s"⟩ [] true =
      .ok ⟨.POST, "/apps/" ++ "4" ++ "/batch_events", [("batch", PyValue.list [])]⟩ ∧
    (Request.mk .POST ("/apps/" ++ "4" ++ "/batch_events")
        [("batch", PyValue.list [])]).path = "/apps/" ++ "4" ++ "/batch_events" ∧
    (channels_info ⟨"4", "k", "s"⟩ Option.none []).method = .GET ∧
    (channels_info ⟨"4", "k", "s"⟩ Option.none []).path = "/apps/" ++ "4" ++ "/channels" ∧
    channel_info ⟨"4", "k", "s"⟩ "chan" [] =
      .ok ⟨.GET, "/apps/" ++ "4" ++ "/channels/" ++ "chan", []⟩ ∧
    (Request.mk .GET ("/apps/" ++ "4" ++ "/channels/" ++ "chan") []).path =
      "/apps/" ++ "4" ++ "/channels/" ++ "chan" ∧
    users_info ⟨"4", "k", "s"⟩ "chan" =
      .ok ⟨.GET, "/apps/" ++ "4" ++ "/channels/" ++ "chan" ++ "/users", []⟩ ∧
    (Request.mk .GET ("/apps/" ++ "4" ++ "/channels/" ++ "chan" ++ "/users") []).path =
      "/apps/" ++ "4" ++ "/channels/" ++ "chan" ++ "/users" := by
  have h := request_method_paths ⟨"4", "k", "s"⟩
  refine ⟨rfl, (h.1 (.list ["c"]) "e" (.str "x") Option.none _ rfl).1,
    (h.1 (.list ["c"]) "e" (.str "x") Option.none _ rfl).2, rfl,
    (h.2.1 [] true _ rfl).2, (h.2.2.1 Option.none []).1,
    (h.2.2.1 Option.none []).2, rfl, (h.2.2.2.1 "chan" [] _ rfl).2, rfl,
    (h.2.2.2.2 "chan" _ rfl).2⟩

end Pusher
